import Mathlib

/-!
Verification of the WingSight motion-gated capture pipeline.

Shallow embedding of:
* `src/wingsight/detection/motion_detector.py` (`MotionDetector`),
* `src/wingsight/logging/csv_logger.py` (`CSVLogger`),
* `scripts/detect_with_motion.py` (`main`, the capture loop).

Frames are modelled as lists of 8-bit pixel values (`List ℕ`).  The external
OpenCV stage `cv2.cvtColor(·, COLOR_RGB2GRAY)` followed by
`cv2.GaussianBlur(·, (blur_size, blur_size), 0)` is modelled by an abstract
function `proc : List ℕ → List ℕ` carried by the detector: the repository
calls into OpenCV for it, so theorems quantify over every such function.
Clock readings (`time.time()`) are modelled as rationals; the external object
detector `BirdDetector.detect_all_objects` is modelled as an oracle input per
tick (the sequence it would return for that frame).
-/

namespace WingSight

/-- State of `MotionDetector` (`motion_detector.py`): the three constructor
parameters plus the mutable reference frame `previous_frame`, which starts as
`None`.  `proc` stands for the grayscale-conversion-then-blur stage performed
with OpenCV inside `has_motion` (it is the only place `blur_size` is used). -/
structure MotionDetector where
  pixel_threshold : ℕ
  motion_threshold : ℚ
  blur_size : ℕ
  proc : List ℕ → List ℕ
  previous_frame : Option (List ℕ)

/-- Embeds `MotionDetector.__init__`: stores the parameters, `previous_frame = None`. -/
def MotionDetector.init (pixel_threshold : ℕ) (motion_threshold : ℚ)
    (blur_size : ℕ) (proc : List ℕ → List ℕ) : MotionDetector :=
  ⟨pixel_threshold, motion_threshold, blur_size, proc, none⟩

/-- Embeds `MotionDetector.has_motion(frame)`.  Returns the updated detector (the
source mutates `self.previous_frame`) together with
`(has_motion, motion_ratio)`.
* `frame is None` → `(False, 0.0)`, state untouched;
* no reference frame → store the processed frame, `(False, 0.0)`;
* otherwise: per-pixel absolute difference against the reference,
  `cv2.threshold(diff, pixel_threshold, 255, THRESH_BINARY)` marks a pixel
  changed iff its difference is strictly greater than `pixel_threshold`,
  `motion_ratio = changed_pixels / total_pixels`, the reference is replaced,
  and `has_motion = motion_ratio ≥ motion_threshold`. -/
def MotionDetector.has_motion (md : MotionDetector) (frame : Option (List ℕ)) :
    MotionDetector × (Bool × ℚ) :=
  match frame with
  | none => (md, (false, 0))
  | some f =>
    let gray := md.proc f
    match md.previous_frame with
    | none => ({ md with previous_frame := some gray }, (false, 0))
    | some prev =>
      let diff := List.zipWith (fun a b => max a b - min a b) prev gray
      let changed_pixels := (diff.filter (fun d => md.pixel_threshold < d)).length
      let total_pixels := diff.length
      let motion_ratio : ℚ := (changed_pixels : ℚ) / (total_pixels : ℚ)
      ({ md with previous_frame := some gray },
       (decide (md.motion_threshold ≤ motion_ratio), motion_ratio))

/-- Embeds `MotionDetector.reset()`: forget the previous frame. -/
def MotionDetector.reset (md : MotionDetector) : MotionDetector :=
  { md with previous_frame := none }

/-- Feed a sequence of frames to the detector, collecting the
`(has_motion, motion_ratio)` outputs. -/
def runMD (md : MotionDetector) : List (Option (List ℕ)) →
    MotionDetector × List (Bool × ℚ)
  | [] => (md, [])
  | f :: fs =>
    let r := md.has_motion f
    let rest := runMD r.1 fs
    (rest.1, r.2 :: rest.2)

/-- One line of the CSV log file: the header row written by `_ensure_header`,
or a data row `[timestamp, detection, confidence, image_path]` written by
`log_detection` (`csv_logger.py`).  The timestamp is the clock reading taken
by `datetime.now()` at the call. -/
inductive CSVLine where
  | header
  | row (timestamp : ℚ) (detection : String) (confidence : ℚ) (image_path : String)
deriving DecidableEq

namespace CSVLogger

/-- Embeds `CSVLogger._ensure_header` (Lean cannot start a name with an underscore): the file contents after construction, given
the contents before (`none` = the file does not exist).  A missing file is
created holding exactly the header row; an existing file is left untouched. -/
def ensure_header : Option (List CSVLine) → List CSVLine
  | none => [CSVLine.header]
  | some ls => ls

/-- Embeds `CSVLogger.__init__`: remembers the path and ensures the header. -/
def init (file : Option (List CSVLine)) : List CSVLine :=
  ensure_header file

/-- Embeds `CSVLogger.log_detection(detection, confidence, image_path)`: open the
file in append mode and write one row.  Python's `image_path or ""` maps
`None` to `""` and keeps any string (the empty string is falsy but `or` then
yields `""`, the same value), which is exactly `Option.getD`. -/
def log_detection (file : List CSVLine) (now : ℚ) (detection : String)
    (confidence : ℚ) (image_path : Option String) : List CSVLine :=
  file ++ [CSVLine.row now detection confidence (image_path.getD "")]

end CSVLogger

/-- The information content of a saved image's filename,
`f"{time.strftime(\x22%Y%m%d_%H%M%S\x22)}_{object_names}.jpg"` in
`detect_with_motion.py`: the wall-clock time truncated to whole seconds
(`strftime` has one-second granularity and is injective on distinct seconds)
and the names of the first three detected objects. -/
structure Filename where
  tsec : ℤ
  names : List String
deriving DecidableEq

/-- Render the filename (with the `captures` output directory) as the string
path passed to `cv2.imwrite` and `log_detection`. -/
def Filename.render (f : Filename) : String :=
  "captures/" ++ toString f.tsec ++ "_" ++ String.intercalate "_" f.names ++ ".jpg"

/-- Inputs consumed by one iteration of the `while True` loop in
`detect_with_motion.py`: the frame returned by `camera.capture_frame()`
(`none` = transient capture failure), the clock reading `time.time()`, and
the sequence `detector.detect_all_objects(frame, min_confidence)` would
return for this frame if invoked (the detector is an external collaborator,
so its output is an oracle input). -/
structure TickInput where
  frame : Option (List ℕ)
  now : ℚ
  detOut : List (String × ℚ)

/-- Observable effects of one loop iteration: whether the object detector was
invoked, the image file written by `cv2.imwrite` (if any), and the row
appended to the CSV log (if any). -/
structure TickEvent where
  detectorInvoked : Bool
  savedImage : Option Filename
  loggedRow : Option CSVLine
deriving DecidableEq

/-- Mutable state of `main` in `detect_with_motion.py`: the motion detector,
`last_save_time` (initially `0`), the three counters, plus the accumulated
artifacts — the image files written to the `captures` directory and the
contents of the `detections.csv` log. -/
structure LoopState where
  md : MotionDetector
  last_save_time : ℚ
  frame_count : ℕ
  motion_count : ℕ
  saved_count : ℕ
  images : List Filename
  logFile : List CSVLine

/-- Constant `OBJECT_CONFIDENCE_THRESHOLD = 0.5` in `detect_with_motion.py`; passed to
the external detector as `min_confidence`. -/
def OBJECT_CONFIDENCE_THRESHOLD : ℚ := 1 / 2

/-- Constant `COOLDOWN_SECONDS = 10` in `detect_with_motion.py`. -/
def COOLDOWN_SECONDS : ℚ := 10

/-- Constant `MAX_IMAGES_PER_DAY = 100` in `detect_with_motion.py` (declared as a
safety limit; see the cap theorems for what the loop does with it). -/
def MAX_IMAGES_PER_DAY : ℕ := 100

/-- One iteration of the capture loop in `main` (`detect_with_motion.py`):
* `capture_frame()` returned `None` → print, sleep, `continue` (nothing else
  runs on the tick, not even `frame_count += 1`);
* otherwise evaluate motion; without motion only the heartbeat print runs;
* with motion, if `current_time - last_save_time < COOLDOWN_SECONDS` the tick
  is skipped without calling the detector;
* otherwise `detect_all_objects` is invoked: an empty result saves nothing;
  a non-empty result bumps `saved_count`, sets `last_save_time`, writes one
  image named by the timestamp and the first three object names, and logs one
  row with the first object's label and confidence and the image path. -/
def tick (cooldown : ℚ) (s : LoopState) (inp : TickInput) : LoopState × TickEvent :=
  match inp.frame with
  | none => (s, ⟨false, none, none⟩)
  | some frame =>
    let r := s.md.has_motion (some frame)
    let s1 : LoopState := { s with md := r.1, frame_count := s.frame_count + 1 }
    if r.2.1 then
      let s2 : LoopState := { s1 with motion_count := s1.motion_count + 1 }
      if inp.now - s.last_save_time < cooldown then
        (s2, ⟨false, none, none⟩)
      else
        match inp.detOut with
        | [] => (s2, ⟨true, none, none⟩)
        | (label, conf) :: _ =>
          let fname : Filename := ⟨⌊inp.now⌋, (inp.detOut.take 3).map Prod.fst⟩
          let row : CSVLine := CSVLine.row inp.now label conf fname.render
          ({ s2 with
              saved_count := s2.saved_count + 1,
              last_save_time := inp.now,
              images := s2.images ++ [fname],
              logFile := CSVLogger.log_detection s2.logFile inp.now label conf
                (some fname.render) },
           ⟨true, some fname, some row⟩)
    else
      (s1, ⟨false, none, none⟩)

/-- Run the capture loop over a list of tick inputs, collecting the per-tick
events. -/
def runLoop (cooldown : ℚ) (s : LoopState) : List TickInput →
    LoopState × List TickEvent
  | [] => (s, [])
  | i :: is =>
    let r := tick cooldown s i
    let rest := runLoop cooldown r.1 is
    (rest.1, r.2 :: rest.2)

/-- The state of `main` just before the loop starts: detector built with
`pixel_threshold=30, motion_threshold=0.01, blur_size=5`, counters and
`last_save_time` zero, no images yet, and the CSV log as `CSVLogger.__init__`
leaves it (`log0` is the pre-existing file contents, if any). -/
def initLoopState (proc : List ℕ → List ℕ) (log0 : Option (List CSVLine)) :
    LoopState :=
  { md := MotionDetector.init 30 (1 / 100) 5 proc
    last_save_time := 0
    frame_count := 0
    motion_count := 0
    saved_count := 0
    images := []
    logFile := CSVLogger.init log0 }

/-! ## Motion detector theorems -/

/-- Helper: running the detector over an appended frame list splits into the
two runs, threading the intermediate detector state. -/
theorem runMD_append (md : MotionDetector) (xs ys : List (Option (List ℕ))) :
    runMD md (xs ++ ys) =
      ((runMD (runMD md xs).1 ys).1,
       (runMD md xs).2 ++ (runMD (runMD md xs).1 ys).2) := by
  induction xs generalizing md with
  | nil => simp [runMD]
  | cons x xs ih => simp [runMD, ih]

/-- C3: the first `has_motion` call after construction or after `reset` (i.e.
with no stored reference frame) on a non-`None` frame returns
`(False, 0.0)` and stores the frame's blurred grayscale as the reference. -/
theorem first_frame_no_motion (md : MotionDetector) (f : List ℕ)
    (h : md.previous_frame = none) :
    md.has_motion (some f) =
      ({ md with previous_frame := some (md.proc f) }, (false, 0)) := by
  simp [MotionDetector.has_motion, h]

/-- Witness for C3 at a concrete detector and frame. -/
theorem first_frame_no_motion_witness :
    (MotionDetector.init 30 (1 / 100) 5 id).has_motion (some [7]) =
      ({ MotionDetector.init 30 (1 / 100) 5 id with
          previous_frame := some ((MotionDetector.init 30 (1 / 100) 5 id).proc [7]) },
       (false, 0)) :=
  first_frame_no_motion (MotionDetector.init 30 (1 / 100) 5 id) [7] rfl

/-- C4 (amended): the returned `motion_ratio` always lies in `[0,1]`, and on
every call where a reference frame exists and the frame is non-`None` (the
calls that actually compute a ratio), `has_motion` is `True` iff
`motion_threshold ≤ motion_ratio`.  On cold-start and `None`-frame calls the
result is `(False, 0.0)`, so there the equivalence additionally holds exactly
when `motion_threshold` is positive. -/
theorem motion_ratio_bounds_and_threshold (md : MotionDetector)
    (f : Option (List ℕ)) :
    0 ≤ (md.has_motion f).2.2 ∧ (md.has_motion f).2.2 ≤ 1 ∧
      (md.previous_frame.isSome → f.isSome →
        ((md.has_motion f).2.1 = true ↔
          md.motion_threshold ≤ (md.has_motion f).2.2)) := by
  cases f with
  | none => simp [MotionDetector.has_motion]
  | some g =>
    cases hp : md.previous_frame with
    | none => simp [MotionDetector.has_motion, hp]
    | some prev =>
      have hle :
          ((List.zipWith (fun a b => max a b - min a b) prev (md.proc g)).filter
              (fun d => md.pixel_threshold < d)).length ≤
            (List.zipWith (fun a b => max a b - min a b) prev (md.proc g)).length :=
        List.length_filter_le _ _
      simp only [MotionDetector.has_motion, hp, decide_eq_true_eq]
      refine ⟨by positivity, ?_, fun _ _ => trivial⟩
      rcases Nat.eq_zero_or_pos
          (List.zipWith (fun a b => max a b - min a b) prev (md.proc g)).length with
        h0 | hpos
      · simp [h0]
      · exact (div_le_one (by exact_mod_cast hpos)).mpr (by exact_mod_cast hle)

/-- Witness for C4 at a concrete detector with a stored reference frame. -/
theorem motion_ratio_bounds_and_threshold_witness :
    0 ≤ (({ MotionDetector.init 30 (1 / 100) 5 id with
        previous_frame := some [0] }).has_motion (some [255])).2.2 ∧
    (({ MotionDetector.init 30 (1 / 100) 5 id with
        previous_frame := some [0] }).has_motion (some [255])).2.2 ≤ 1 ∧
    ((({ MotionDetector.init 30 (1 / 100) 5 id with
        previous_frame := some [0] }).has_motion (some [255])).2.1 = true ↔
      ({ MotionDetector.init 30 (1 / 100) 5 id with
        previous_frame := some [0] } : MotionDetector).motion_threshold ≤
        (({ MotionDetector.init 30 (1 / 100) 5 id with
            previous_frame := some [0] }).has_motion (some [255])).2.2) := by
  have h := motion_ratio_bounds_and_threshold
    ({ MotionDetector.init 30 (1 / 100) 5 id with previous_frame := some [0] })
    (some [255])
  exact ⟨h.1, h.2.1, h.2.2 (by simp [MotionDetector.init]) (by simp)⟩

/-- C4 counterexample: with `motion_threshold = 0` (inside the documented
`[0,1]` range), the first call returns `has_motion = False` with
`motion_ratio = 0.0`, yet `motion_ratio ≥ motion_threshold` holds — so
`has_motion ⇔ motion_ratio ≥ motion_threshold` fails on that call. -/
theorem motion_threshold_iff_fails_at_zero :
    ¬ ((((MotionDetector.init 30 0 5 id).has_motion (some [5])).2.1 = true) ↔
        (MotionDetector.init 30 0 5 id).motion_threshold ≤
          ((MotionDetector.init 30 0 5 id).has_motion (some [5])).2.2) := by
  simp [MotionDetector.has_motion, MotionDetector.init]

/-- C5: after `reset()`, feeding any frame sequence reproduces exactly the
outputs of a freshly constructed detector with the same parameters, starting
from any prior detector state. -/
theorem reset_reproduces_fresh_run (md : MotionDetector)
    (frames : List (Option (List ℕ))) :
    runMD md.reset frames =
      runMD (MotionDetector.init md.pixel_threshold md.motion_threshold
        md.blur_size md.proc) frames := rfl

/-- C10: a `None` frame returns `(False, 0.0)` and leaves the detector state
(in particular the stored reference frame) unchanged, so a `None` frame
interleaved anywhere in a sequence merely inserts a `(False, 0.0)` output and
does not disturb the state threading or the other outputs. -/
theorem none_frame_no_disturbance (md : MotionDetector)
    (xs ys : List (Option (List ℕ))) :
    md.has_motion none = (md, (false, 0)) ∧
    runMD md (xs ++ none :: ys) =
      ((runMD md (xs ++ ys)).1,
       (runMD md xs).2 ++ (false, 0) :: (runMD (runMD md xs).1 ys).2) := by
  refine ⟨rfl, ?_⟩
  rw [runMD_append md xs (none :: ys), runMD_append md xs ys]
  simp [runMD, MotionDetector.has_motion]

/-! ## CSV logger theorems -/

/-- C9: construction writes the fixed header exactly once when the file does
not exist and leaves an existing file untouched; every `log_detection` call
appends exactly one row carrying the timestamp, label, confidence and the
image path (empty string when absent), leaving every previously written line
unchanged. -/
theorem csv_header_once_and_append_only :
    (CSVLogger.init none).count CSVLine.header = 1 ∧
    (∀ ls : List CSVLine, CSVLogger.init (some ls) = ls) ∧
    (∀ (file : List CSVLine) (now : ℚ) (d : String) (c : ℚ) (p : Option String),
      (CSVLogger.log_detection file now d c p).length = file.length + 1 ∧
      (CSVLogger.log_detection file now d c p).take file.length = file ∧
      (CSVLogger.log_detection file now d c p).getLast? =
        some (CSVLine.row now d c (p.getD ""))) := by
  refine ⟨rfl, fun ls => rfl, fun file now d c p => ⟨?_, ?_, ?_⟩⟩
  · simp [CSVLogger.log_detection]
  · simp [CSVLogger.log_detection, List.take_append_of_le_length]
  · simp [CSVLogger.log_detection]

/-! ## Capture loop theorems -/

/-- C1: on a tick where motion is reported while still inside the cooldown
window (`now - last_save_time < cooldown`), the loop saves no image, appends
no log row, does not invoke the object detector (whatever it would have
returned), and leaves `last_save_time` and the saved-image count unchanged. -/
theorem cooldown_blocks_save (cooldown : ℚ) (s : LoopState) (inp : TickInput)
    (f : List ℕ) (hf : inp.frame = some f)
    (hm : (s.md.has_motion (some f)).2.1 = true)
    (hcd : inp.now - s.last_save_time < cooldown) :
    (tick cooldown s inp).2 = ⟨false, none, none⟩ ∧
    (tick cooldown s inp).1.images = s.images ∧
    (tick cooldown s inp).1.logFile = s.logFile ∧
    (tick cooldown s inp).1.last_save_time = s.last_save_time ∧
    (tick cooldown s inp).1.saved_count = s.saved_count := by
  obtain ⟨fr, now, det⟩ := inp
  simp only [TickInput.frame] at hf
  subst hf
  simp [tick, hm, hcd]

/-- Demonstration state for the capture-loop witnesses: detector holding an
all-black one-pixel reference frame, nothing saved yet. -/
def demoState : LoopState :=
  { md := { MotionDetector.init 30 (1 / 100) 5 id with previous_frame := some [0] }
    last_save_time := 0
    frame_count := 0
    motion_count := 0
    saved_count := 0
    images := []
    logFile := [CSVLine.header] }

/-- Witness for C1: motion on an all-white frame 5 seconds after a save, with
a 10-second cooldown and a detector that would have reported a cat. -/
theorem cooldown_blocks_save_witness :
    (tick 10 demoState ⟨some [255], 5, [("cat", 9 / 10)]⟩).2 = ⟨false, none, none⟩ ∧
    (tick 10 demoState ⟨some [255], 5, [("cat", 9 / 10)]⟩).1.images = demoState.images ∧
    (tick 10 demoState ⟨some [255], 5, [("cat", 9 / 10)]⟩).1.logFile = demoState.logFile ∧
    (tick 10 demoState ⟨some [255], 5, [("cat", 9 / 10)]⟩).1.last_save_time =
      demoState.last_save_time ∧
    (tick 10 demoState ⟨some [255], 5, [("cat", 9 / 10)]⟩).1.saved_count =
      demoState.saved_count :=
  cooldown_blocks_save 10 demoState ⟨some [255], 5, [("cat", 9 / 10)]⟩ [255] rfl
    (by norm_num [demoState, MotionDetector.has_motion, MotionDetector.init])
    (by norm_num [demoState])

/-- C2: on a tick with motion and the cooldown expired the detector is
invoked, and an image is saved with a log row appended iff it returns a
non-empty sequence; in that case exactly one image and exactly one row are
written, the row carries the first returned detection's label and confidence
(no re-sorting) and the saved image's path, and `last_save_time` becomes the
tick's clock reading. -/
theorem save_iff_objects_detected (cooldown : ℚ) (s : LoopState)
    (inp : TickInput) (f : List ℕ) (hf : inp.frame = some f)
    (hm : (s.md.has_motion (some f)).2.1 = true)
    (hcd : ¬ inp.now - s.last_save_time < cooldown) :
    (tick cooldown s inp).2.detectorInvoked = true ∧
    ((tick cooldown s inp).2.savedImage.isSome ↔ inp.detOut ≠ []) ∧
    ((tick cooldown s inp).2.loggedRow.isSome ↔ inp.detOut ≠ []) ∧
    (inp.detOut = [] →
      (tick cooldown s inp).1.images = s.images ∧
      (tick cooldown s inp).1.logFile = s.logFile ∧
      (tick cooldown s inp).1.last_save_time = s.last_save_time) ∧
    (∀ (label : String) (conf : ℚ) (rest : List (String × ℚ)),
      inp.detOut = (label, conf) :: rest →
      (tick cooldown s inp).1.images =
        s.images ++ [⟨⌊inp.now⌋, (inp.detOut.take 3).map Prod.fst⟩] ∧
      (tick cooldown s inp).1.logFile =
        s.logFile ++ [CSVLine.row inp.now label conf
          (Filename.render ⟨⌊inp.now⌋, (inp.detOut.take 3).map Prod.fst⟩)] ∧
      (tick cooldown s inp).2.savedImage =
        some ⟨⌊inp.now⌋, (inp.detOut.take 3).map Prod.fst⟩ ∧
      (tick cooldown s inp).2.loggedRow =
        some (CSVLine.row inp.now label conf
          (Filename.render ⟨⌊inp.now⌋, (inp.detOut.take 3).map Prod.fst⟩)) ∧
      (tick cooldown s inp).1.last_save_time = inp.now) := by
  obtain ⟨fr, now, det⟩ := inp
  simp only [TickInput.frame] at hf
  subst hf
  cases det with
  | nil => simp [tick, hm, hcd]
  | cons hd tl =>
    obtain ⟨label, conf⟩ := hd
    simp [tick, hm, hcd, CSVLogger.log_detection]

/-- Witness for C2: motion on an all-white frame 50 seconds after start with
the detector returning a bird then a branch; one save and one row result. -/
theorem save_iff_objects_detected_witness :
    (tick 10 demoState ⟨some [255], 50, [("bird", 4 / 5), ("branch", 3 / 10)]⟩).2.detectorInvoked
        = true ∧
    ((tick 10 demoState
        ⟨some [255], 50, [("bird", 4 / 5), ("branch", 3 / 10)]⟩).2.savedImage.isSome ↔
      ([("bird", (4 : ℚ) / 5), ("branch", 3 / 10)] : List (String × ℚ)) ≠ []) := by
  have h := save_iff_objects_detected 10 demoState
    ⟨some [255], 50, [("bird", 4 / 5), ("branch", 3 / 10)]⟩ [255] rfl
    (by norm_num [demoState, MotionDetector.has_motion, MotionDetector.init])
    (by norm_num [demoState])
  exact ⟨h.1, h.2.1⟩

/-- C6: ticks on which the camera returns no frame change nothing: for any
number of consecutive transient capture failures the loop state — including
the motion detector's reference frame, `last_save_time` and the log — is
untouched and every such tick emits no save, no log row and no detector
call. -/
theorem transient_failure_skips_ticks (cooldown : ℚ) (s : LoopState)
    (inps : List TickInput) (h : ∀ i ∈ inps, i.frame = none) :
    runLoop cooldown s inps =
      (s, inps.map fun _ => (⟨false, none, none⟩ : TickEvent)) := by
  induction inps with
  | nil => simp [runLoop]
  | cons i is ih =>
    have hi : i.frame = none := h i (by simp)
    have hrest := ih fun j hj => h j (by simp [hj])
    simp [runLoop, tick, hi, hrest]

/-- Witness for C6: five consecutive failed captures leave the demonstration
state unchanged and produce five empty events. -/
theorem transient_failure_skips_ticks_witness :
    runLoop 10 demoState (List.replicate 5 ⟨none, 0, []⟩) =
      (demoState,
       (List.replicate 5 (⟨none, 0, []⟩ : TickInput)).map
         fun _ => (⟨false, none, none⟩ : TickEvent)) :=
  transient_failure_skips_ticks 10 demoState (List.replicate 5 ⟨none, 0, []⟩)
    (by intro i hi; rw [List.eq_of_mem_replicate hi])

/-- C7 (the code does not enforce the cap): from a state whose saved-image
count has already reached `MAX_IMAGES_PER_DAY = 100`, a tick with motion, an
expired cooldown and a detection still saves an image, pushing the count to
101 — the constant is declared in `detect_with_motion.py` but never consulted
by the loop. -/
theorem max_images_cap_not_enforced :
    ((tick COOLDOWN_SECONDS
        { demoState with
            saved_count := MAX_IMAGES_PER_DAY,
            images := (List.range MAX_IMAGES_PER_DAY).map fun i => ⟨i, ["bird"]⟩ }
        ⟨some [255], 50, [("bird", 4 / 5)]⟩).2.savedImage).isSome = true ∧
    MAX_IMAGES_PER_DAY <
      (tick COOLDOWN_SECONDS
        { demoState with
            saved_count := MAX_IMAGES_PER_DAY,
            images := (List.range MAX_IMAGES_PER_DAY).map fun i => ⟨i, ["bird"]⟩ }
        ⟨some [255], 50, [("bird", 4 / 5)]⟩).1.saved_count := by
  norm_num [tick, demoState, MotionDetector.has_motion, MotionDetector.init,
    COOLDOWN_SECONDS, MAX_IMAGES_PER_DAY]

/-! ## Filename uniqueness -/

/-- Invariant maintained by the capture loop: the whole-second timestamps of
the saved images are strictly increasing along the save order and bounded by
the floor of `last_save_time`. -/
def SaveTimesOK (s : LoopState) : Prop :=
  (∀ g ∈ s.images, g.tsec ≤ ⌊s.last_save_time⌋) ∧
  s.images.Pairwise fun a b => a.tsec < b.tsec

/-- Helper: one tick preserves the save-time invariant whenever the cooldown
is at least one second, because a new save requires
`now ≥ last_save_time + cooldown` and is stamped with `⌊now⌋`. -/
theorem tick_preserves_saveTimesOK (cooldown : ℚ) (hc : 1 ≤ cooldown)
    (s : LoopState) (inp : TickInput) (h : SaveTimesOK s) :
    SaveTimesOK (tick cooldown s inp).1 := by
  cases hf : inp.frame with
  | none => simpa [tick, hf] using h
  | some f =>
    simp only [tick, hf]
    split
    · split
      · exact h
      · next hcd =>
        split
        · exact h
        · next label conf rest hdet =>
          have hnow : s.last_save_time + 1 ≤ inp.now := by
            have := not_lt.mp hcd
            linarith
          have hfl : ⌊s.last_save_time⌋ < ⌊inp.now⌋ := by
            calc ⌊s.last_save_time⌋ < ⌊s.last_save_time⌋ + 1 := lt_add_one _
              _ = ⌊s.last_save_time + 1⌋ := (Int.floor_add_one _).symm
              _ ≤ ⌊inp.now⌋ := Int.floor_le_floor hnow
          constructor
          · intro g hg
            rcases List.mem_append.mp hg with hg | hg
            · exact le_of_lt (lt_of_le_of_lt (h.1 g hg) hfl)
            · rcases List.mem_singleton.mp hg with rfl
              exact le_refl _
          · rw [List.pairwise_append]
            refine ⟨h.2, List.pairwise_singleton _ _, ?_⟩
            intro a ha b hb
            rcases List.mem_singleton.mp hb with rfl
            exact lt_of_le_of_lt (h.1 a ha) hfl
    · exact h

/-- Helper: the save-time invariant holds along any run of the loop. -/
theorem runLoop_preserves_saveTimesOK (cooldown : ℚ) (hc : 1 ≤ cooldown)
    (s : LoopState) (h : SaveTimesOK s) (inps : List TickInput) :
    SaveTimesOK (runLoop cooldown s inps).1 := by
  induction inps generalizing s with
  | nil => simpa [runLoop] using h
  | cons i is ih =>
    simp only [runLoop]
    exact ih _ (tick_preserves_saveTimesOK cooldown hc s i h)

/-- C8: in any run of the capture loop from its initial state with the
script's 10-second cooldown, the saved images' filenames are pairwise
distinct — two saves are always at least 10 seconds apart, so their
whole-second timestamps (the leading block of the filename) differ. -/
theorem filenames_unique_per_save (proc : List ℕ → List ℕ)
    (log0 : Option (List CSVLine)) (inps : List TickInput) :
    ((runLoop COOLDOWN_SECONDS (initLoopState proc log0) inps).1.images).Pairwise
      (· ≠ ·) := by
  have h := runLoop_preserves_saveTimesOK COOLDOWN_SECONDS
    (by norm_num [COOLDOWN_SECONDS]) (initLoopState proc log0)
    ⟨by simp [initLoopState], by simp [initLoopState]⟩ inps
  exact h.2.imp fun hab heq => absurd (heq ▸ hab) (lt_irrefl _)

end WingSight
